import Mathlib

/-
Verification of the pledge token-sale / vesting / reward program.
The Rust source (src/lib.rs) is shallowly embedded below: u64 values are
natural numbers, u64 arithmetic that can wrap is taken modulo 2^64
(release-profile wrapping semantics), saturating operations are modelled
explicitly, and the external transfer capability of claim_rewards is an
injected boolean outcome.
-/

namespace Pledge

/-- 2^64, the number of u64 values. -/
def two64 : Nat := 18446744073709551616

/-- u64::MAX. -/
def u64_MAX : Nat := 18446744073709551615

/-- Wrapping reduction of a natural number into u64 range (release-mode
overflow semantics for u64 addition and multiplication). -/
def w64 (n : Nat) : Nat := n % two64

/-- Wrapping u64 subtraction, for arguments below 2^64. -/
def wsub (a b : Nat) : Nat := (a + two64 - b) % two64

/-- u64 saturating addition (u64::saturating_add), for arguments below 2^64. -/
def satAdd (a b : Nat) : Nat := min (a + b) u64_MAX

/-- Constant TOTAL_PLEDGE_SUPPLY from src/lib.rs. -/
def TOTAL_PLEDGE_SUPPLY : Nat := 100000000

/-- Constant TOTAL_SOLHIT_SUPPLY from src/lib.rs. -/
def TOTAL_SOLHIT_SUPPLY : Nat := 14000000

/-- Constant LOCKED_SOLHIT_TOKENS from src/lib.rs. -/
def LOCKED_SOLHIT_TOKENS : Nat := 4000000

/-- Constant VESTING_PERIOD from src/lib.rs (63_072_000 seconds). -/
def VESTING_PERIOD : Nat := 63072000

/-- Constant REWARD_RATE from src/lib.rs. -/
def REWARD_RATE : Nat := 40

/-- Constant PHASE_RATES from src/lib.rs. -/
def PHASE_RATES : List Nat := [200, 175, 150, 125, 100]

/-- The per-participant record UserState from src/lib.rs; all four fields
are u64 in the source. -/
structure UserState where
  locked_pledge_tokens : Nat
  solhit_rewards : Nat
  lock_start_time : Nat
  vesting_end_time : Nat
deriving DecidableEq

/-- The error outcomes the program returns (solana ProgramError values):
InvalidArgument is the cap-exceeded rejection of buy_pledge,
InsufficientFunds the pool rejection of claim_rewards, and
TransferFailed stands for an error propagated from the external
invoke_signed transfer. -/
inductive ProgramError where
| InvalidArgument
| InsufficientFunds
| TransferFailed
deriving DecidableEq

/-- get_sale_phase from src/lib.rs, unrolled over the five entries of the
duration array: the running sum elapsed_time is a u64 and wraps; if no
boundary matched the function falls through to phase_durations.len() - 1,
which is 4. -/
def get_sale_phase (current_time d0 d1 d2 d3 d4 : Nat) : Nat :=
  let e0 := w64 (0 + d0)
  if current_time < e0 then 0 else
  let e1 := w64 (e0 + d1)
  if current_time < e1 then 1 else
  let e2 := w64 (e1 + d2)
  if current_time < e2 then 2 else
  let e3 := w64 (e2 + d3)
  if current_time < e3 then 3 else
  let e4 := w64 (e3 + d4)
  if current_time < e4 then 4 else
  4

/-- The rate looked up by buy_pledge: phase_rates[sale_phase] where the
phase is resolved against PHASE_DURATIONS = [1_296_000 four times, u64::MAX].
get_sale_phase always yields an index below 5, so List.getD with default 0
coincides with the source's array indexing. -/
def purchase_rate (current_time : Nat) : Nat :=
  PHASE_RATES.getD
    (get_sale_phase current_time 1296000 1296000 1296000 1296000 u64_MAX) 0

/-- The allocation buy_pledge computes: (amount * rate) / 100 in u64, the
product wrapping on overflow and the division truncating. -/
def pledge_granted (amount current_time : Nat) : Nat :=
  w64 (amount * purchase_rate current_time) / 100

/-- buy_pledge from src/lib.rs as a state transition: returns the record
after the call together with the error, if any.  The cap check uses plain
u64 subtraction (wrapping in release mode); on rejection the account data
is never written, so the record is returned unchanged. -/
def buy_pledge (r : UserState) (amount current_time : Nat) :
    UserState × Option ProgramError :=
  let pledge_tokens := pledge_granted amount current_time
  if wsub TOTAL_PLEDGE_SUPPLY r.locked_pledge_tokens < pledge_tokens then
    (r, some ProgramError.InvalidArgument)
  else
    (⟨w64 (r.locked_pledge_tokens + pledge_tokens),
      r.solhit_rewards,
      current_time,
      max r.vesting_end_time (w64 (current_time + VESTING_PERIOD))⟩, none)

/-- unlock_vested_tokens from src/lib.rs: zero the locked amount and the
vesting deadline, leaving the other fields alone. -/
def unlock_vested_tokens (r : UserState) : UserState :=
  ⟨0, r.solhit_rewards, r.lock_start_time, 0⟩

/-- update_reward from src/lib.rs: elapsed time is computed with
saturating_sub (truncated subtraction on Nat); when the vesting period has
elapsed the minted amount is the u128 product locked * REWARD_RATE cast
back to u64 (truncation mod 2^64) and saturating-added to the reward
balance, then the lock restarts and the tokens unlock; otherwise, past the
absolute vesting_end_time deadline, the tokens unlock with no reward. -/
def update_reward (r : UserState) (current_time : Nat) : UserState :=
  let elapsed_time := current_time - r.lock_start_time
  if VESTING_PERIOD ≤ elapsed_time then
    let minted := w64 (r.locked_pledge_tokens * REWARD_RATE)
    unlock_vested_tokens
      ⟨r.locked_pledge_tokens,
        satAdd r.solhit_rewards minted,
        current_time,
        r.vesting_end_time⟩
  else if r.vesting_end_time ≤ current_time then
    unlock_vested_tokens r
  else
    r

/-- remaining_solhit_tokens computed by claim_rewards:
solhit_token_supply.saturating_sub(locked_solhit_tokens); Nat subtraction
is saturating. -/
def remaining_solhit_tokens : Nat := TOTAL_SOLHIT_SUPPLY - LOCKED_SOLHIT_TOKENS

/-- claim_rewards from src/lib.rs.  The external transfer capability is
injected as the boolean transfer_ok.  Result: the record after the call,
the error if any, and whether the external transfer was invoked.  The
record is written back (with the balance zeroed) only after the transfer
succeeded; every error path leaves the account data untouched. -/
def claim_rewards (r : UserState) (transfer_ok : Bool) :
    UserState × Option ProgramError × Bool :=
  if r.solhit_rewards = 0 then
    (r, none, false)
  else if remaining_solhit_tokens < r.solhit_rewards then
    (r, some ProgramError.InsufficientFunds, false)
  else if transfer_ok then
    (⟨r.locked_pledge_tokens, 0, r.lock_start_time, r.vesting_end_time⟩,
      none, true)
  else
    (r, some ProgramError.TransferFailed, true)

/-- Little-endian byte decomposition of a u64, as borsh serializes it. -/
def u64ToLE (n : Nat) : List Nat :=
  [n % 256, n / 256 % 256, n / 256 / 256 % 256, n / 256 / 256 / 256 % 256,
   n / 256 / 256 / 256 / 256 % 256, n / 256 / 256 / 256 / 256 / 256 % 256,
   n / 256 / 256 / 256 / 256 / 256 / 256 % 256,
   n / 256 / 256 / 256 / 256 / 256 / 256 / 256 % 256]

/-- serialize_user_state from src/lib.rs: the BorshSerialize impl writes
the four fields in order, each as 8 little-endian bytes. -/
def serialize_user_state (r : UserState) : List Nat :=
  u64ToLE r.locked_pledge_tokens ++ u64ToLE r.solhit_rewards ++
  u64ToLE r.lock_start_time ++ u64ToLE r.vesting_end_time

/-- borsh u64::deserialize: consume 8 little-endian bytes from the front
of the buffer, failing when fewer than 8 remain. -/
def deserialize_u64 : List Nat → Option (Nat × List Nat)
  | b0 :: b1 :: b2 :: b3 :: b4 :: b5 :: b6 :: b7 :: rest =>
      some (b0 + 256 * b1 + 65536 * b2 + 16777216 * b3 +
        4294967296 * b4 + 1099511627776 * b5 +
        281474976710656 * b6 + 72057594037927936 * b7, rest)
  | _ => none

/-- UserState::try_from_slice: the BorshDeserialize impl reads the four
u64 fields in order, and borsh's try_from_slice then fails unless the
buffer was consumed exactly. -/
def try_from_slice (b : List Nat) : Option UserState :=
  (deserialize_u64 b).bind fun p1 =>
  (deserialize_u64 p1.2).bind fun p2 =>
  (deserialize_u64 p2.2).bind fun p3 =>
  (deserialize_u64 p3.2).bind fun p4 =>
  if p4.2 = [] then some ⟨p1.1, p2.1, p3.1, p4.1⟩ else none

/-- C5: when the lock-start-relative elapsed time is still below the
vesting period but current_time has reached the absolute vesting_end_time
deadline, accrue (update_reward) performs a force-unlock only:
locked_pledge_tokens and vesting_end_time become 0, the reward balance and
lock_start_time are unchanged, and no reward is minted.  update_reward is
a total function on records, so accrue never fails. -/
theorem update_reward_force_unlock_spec (r : UserState) (t : Nat)
    (h1 : t - r.lock_start_time < VESTING_PERIOD)
    (h2 : r.vesting_end_time ≤ t) :
    update_reward r t = ⟨0, r.solhit_rewards, r.lock_start_time, 0⟩ := by
  unfold update_reward unlock_vested_tokens
  rw [if_neg (by omega), if_pos h2]

/-- Witness for C5 at a concrete record: lock started at 9, current time
10, vesting_end_time 10; the record force-unlocks with no reward. -/
theorem update_reward_force_unlock_spec_witness :
    (10 : Nat) - 9 < VESTING_PERIOD ∧ (10 : Nat) ≤ 10 ∧
    update_reward ⟨5, 7, 9, 10⟩ 10 = ⟨0, 7, 9, 0⟩ := by
  refine ⟨by decide, by decide, ?_⟩
  exact update_reward_force_unlock_spec ⟨5, 7, 9, 10⟩ 10 (by decide) (by decide)

/-- C6: for a record with a positive reward balance within the claimable
pool, a failing external transfer makes claim_rewards propagate the error
and leave the record unmutated (the balance is zeroed only on confirmed
transfer success). -/
theorem claim_rewards_transfer_fail_spec (r : UserState)
    (h1 : 0 < r.solhit_rewards)
    (h2 : r.solhit_rewards ≤ remaining_solhit_tokens) :
    claim_rewards r false = (r, some ProgramError.TransferFailed, true) := by
  unfold claim_rewards
  rw [if_neg (by omega), if_neg (by omega)]
  simp

/-- Witness for C6 at a concrete record with balance 5. -/
theorem claim_rewards_transfer_fail_spec_witness :
    (0 : Nat) < 5 ∧ (5 : Nat) ≤ remaining_solhit_tokens ∧
    claim_rewards ⟨0, 5, 0, 0⟩ false =
      (⟨0, 5, 0, 0⟩, some ProgramError.TransferFailed, true) := by
  refine ⟨by decide, by decide, ?_⟩
  exact claim_rewards_transfer_fail_spec ⟨0, 5, 0, 0⟩ (by decide) (by decide)

/-- C7: when the reward balance exceeds the claimable pool
(reward_token_supply saturating-minus reserved_reward_tokens, which is
14,000,000 - 4,000,000 = 10,000,000), claim_rewards fails with
InsufficientFunds, the external transfer is never invoked, and the record
is unchanged. -/
theorem claim_rewards_pool_spec (r : UserState) (ok : Bool)
    (h : remaining_solhit_tokens < r.solhit_rewards) :
    claim_rewards r ok = (r, some ProgramError.InsufficientFunds, false) ∧
    remaining_solhit_tokens = 10000000 := by
  have hpool : remaining_solhit_tokens = 10000000 := by decide
  refine ⟨?_, hpool⟩
  unfold claim_rewards
  rw [if_neg (by omega), if_pos h]

/-- Witness for C7 at a concrete record with balance 10,000,001. -/
theorem claim_rewards_pool_spec_witness :
    remaining_solhit_tokens < 10000001 ∧
    claim_rewards ⟨0, 10000001, 0, 0⟩ true =
      (⟨0, 10000001, 0, 0⟩, some ProgramError.InsufficientFunds, false) := by
  refine ⟨by decide, ?_⟩
  exact (claim_rewards_pool_spec ⟨0, 10000001, 0, 0⟩ true (by decide)).1

/-- C8: a claim on a record with zero reward balance succeeds, returns the
record unchanged, and never invokes the external transfer capability. -/
theorem claim_rewards_zero_spec (r : UserState) (ok : Bool)
    (h : r.solhit_rewards = 0) :
    claim_rewards r ok = (r, none, false) := by
  unfold claim_rewards
  rw [if_pos h]

/-- Witness for C8 at a concrete record with zero balance. -/
theorem claim_rewards_zero_spec_witness :
    (UserState.mk 3 0 4 5).solhit_rewards = 0 ∧
    claim_rewards ⟨3, 0, 4, 5⟩ true = (⟨3, 0, 4, 5⟩, none, false) := by
  refine ⟨by decide, ?_⟩
  exact claim_rewards_zero_spec ⟨3, 0, 4, 5⟩ true (by decide)

/-- C10: update_reward either returns the record unchanged (neither the
maturity condition nor the absolute deadline fired) or fully resets the
lock, with locked_pledge_tokens and vesting_end_time both zero; a
partially reset lock is impossible. -/
theorem update_reward_all_or_nothing (r : UserState) (t : Nat) :
    update_reward r t = r ∨
    ((update_reward r t).locked_pledge_tokens = 0 ∧
      (update_reward r t).vesting_end_time = 0) := by
  by_cases h1 : VESTING_PERIOD ≤ t - r.lock_start_time
  · right
    simp [update_reward, unlock_vested_tokens, h1]
  · by_cases h2 : r.vesting_end_time ≤ t
    · right
      simp [update_reward, unlock_vested_tokens, h1, h2]
    · left
      simp [update_reward, h1, h2]

/-- C4 counterexample: with locked_pledge_tokens = 2^63 the u128 product
2^63 * 40 is truncated to u64 as 0 before the saturating addition, so the
matured accrual adds 0 to the reward balance, whereas saturating addition
of the full product (as the claim states) would give u64::MAX; 0 differs
from it. -/
theorem update_reward_truncation_cex :
    update_reward ⟨9223372036854775808, 0, 0, 0⟩ VESTING_PERIOD =
      ⟨0, 0, VESTING_PERIOD, 0⟩ ∧
    satAdd 0 (9223372036854775808 * REWARD_RATE) = 18446744073709551615 ∧
    (0 : Nat) ≠ 18446744073709551615 := by
  refine ⟨by decide, by decide, by decide⟩

/-- C4 (amended): accrue computes the elapsed time with saturating
subtraction, and when it reaches the vesting period the minted amount is
the double-width product locked * rate truncated to u64 and then
saturating-added to the reward balance; whenever locked * rate fits in
u64 (in particular for locked_pledge_tokens up to the allocation cap at
rate 40) this adds exactly locked * rate saturating, and the lock restarts
with locked_pledge_tokens and vesting_end_time zeroed. -/
theorem update_reward_mature_spec (r : UserState) (t : Nat)
    (hm : r.locked_pledge_tokens * REWARD_RATE < two64)
    (he : VESTING_PERIOD ≤ t - r.lock_start_time) :
    update_reward r t =
      ⟨0, satAdd r.solhit_rewards (r.locked_pledge_tokens * REWARD_RATE),
        t, 0⟩ := by
  unfold update_reward unlock_vested_tokens
  rw [if_pos he]
  have hw : w64 (r.locked_pledge_tokens * REWARD_RATE) =
      r.locked_pledge_tokens * REWARD_RATE := Nat.mod_eq_of_lt hm
  rw [hw]

/-- Witness for C4 (amended): the spec's concrete example, locked 1000 at
rate 40 matured vesting, gains exactly 40000 reward tokens and unlocks. -/
theorem update_reward_mature_spec_witness :
    (1000 : Nat) * REWARD_RATE < two64 ∧
    VESTING_PERIOD ≤ VESTING_PERIOD - 0 ∧
    update_reward ⟨1000, 0, 0, 0⟩ VESTING_PERIOD =
      ⟨0, 40000, VESTING_PERIOD, 0⟩ := by
  refine ⟨by decide, by decide, ?_⟩
  have h := update_reward_mature_spec ⟨1000, 0, 0, 0⟩ VESTING_PERIOD
    (by decide) (by decide)
  rw [h]
  decide

/-- Every rate the phase table can yield is at most 200. -/
theorem purchase_rate_le (t : Nat) : purchase_rate t ≤ 200 := by
  unfold purchase_rate PHASE_RATES
  rcases get_sale_phase t 1296000 1296000 1296000 1296000 u64_MAX with
    _ | _ | _ | _ | _ | i <;>
    simp [List.getD]

/-- Wrapping u64 subtraction agrees with exact subtraction when no
underflow occurs. -/
theorem wsub_exact (a b : Nat) (hb : b ≤ a) (ha : a < two64) :
    wsub a b = a - b := by
  unfold wsub
  unfold two64 at ha ⊢
  omega

/-- C1 counterexample: at purchase_time = u64::MAX a purchase succeeds,
but the u64 addition purchase_time + vesting_period wraps, so the stored
vesting_end_time is 63071999 rather than the claimed
max(previous, purchase_time + vesting_duration). -/
theorem buy_pledge_vesting_wrap_cex :
    buy_pledge ⟨0, 0, 0, 0⟩ 1000 u64_MAX =
      (⟨1000, 0, u64_MAX, 63071999⟩, none) ∧
    (63071999 : Nat) ≠ max 0 (u64_MAX + VESTING_PERIOD) := by
  refine ⟨by decide, by decide⟩

/-- C1 (amended): for amounts up to the allocation cap (the range the
claim's width condition covers) and a record within the cap invariant,
buy_pledge computes granted = (amount * rate) / 100 without overflow (u64
suffices for cap * 200), and on success updates exactly:
locked_pledge_tokens grows by granted, lock_start_time becomes the
purchase time, and vesting_end_time becomes the max of its old value and
the wrapping u64 sum purchase time plus the vesting period — equal to the
exact sum whenever it fits in u64; a zero contribution is accepted with
granted = 0. -/
theorem buy_pledge_success_spec (r : UserState) (amount t : Nat)
    (hl : r.locked_pledge_tokens ≤ TOTAL_PLEDGE_SUPPLY)
    (ha : amount ≤ TOTAL_PLEDGE_SUPPLY) :
    pledge_granted amount t = amount * purchase_rate t / 100 ∧
    ((buy_pledge r amount t).2 = none →
      (buy_pledge r amount t).1 =
        ⟨r.locked_pledge_tokens + amount * purchase_rate t / 100,
          r.solhit_rewards, t,
          max r.vesting_end_time (w64 (t + VESTING_PERIOD))⟩) ∧
    buy_pledge r 0 t =
      (⟨r.locked_pledge_tokens, r.solhit_rewards, t,
        max r.vesting_end_time (w64 (t + VESTING_PERIOD))⟩, none) := by
  have hrate := purchase_rate_le t
  have hmul : amount * purchase_rate t < two64 := by
    have h1 : amount * purchase_rate t ≤ TOTAL_PLEDGE_SUPPLY * 200 :=
      Nat.mul_le_mul ha hrate
    unfold TOTAL_PLEDGE_SUPPLY at h1
    unfold two64
    omega
  have hg : pledge_granted amount t = amount * purchase_rate t / 100 := by
    unfold pledge_granted w64
    rw [Nat.mod_eq_of_lt hmul]
  refine ⟨hg, ?_, ?_⟩
  · intro hsucc
    by_cases hc : wsub TOTAL_PLEDGE_SUPPLY r.locked_pledge_tokens <
        pledge_granted amount t
    · exfalso
      simp only [buy_pledge] at hsucc
      rw [if_pos hc] at hsucc
      simp at hsucc
    · simp only [buy_pledge]
      rw [if_neg hc]
      have hcap : pledge_granted amount t ≤
          TOTAL_PLEDGE_SUPPLY - r.locked_pledge_tokens := by
        rw [wsub_exact TOTAL_PLEDGE_SUPPLY r.locked_pledge_tokens hl
          (by decide)] at hc
        omega
      have hlock : w64 (r.locked_pledge_tokens + pledge_granted amount t) =
          r.locked_pledge_tokens + pledge_granted amount t := by
        unfold w64 two64
        unfold TOTAL_PLEDGE_SUPPLY at hl hcap
        omega
      rw [hlock, hg]
  · have hg0 : pledge_granted 0 t = 0 := by
      unfold pledge_granted w64
      simp
    simp only [buy_pledge, hg0]
    rw [if_neg (by omega)]
    have hlock0 : w64 (r.locked_pledge_tokens + 0) =
        r.locked_pledge_tokens := by
      unfold w64 two64
      unfold TOTAL_PLEDGE_SUPPLY at hl
      omega
    rw [hlock0]

/-- Witness for C1 (amended): a fresh record buying 1000 at time 0
(phase-0 rate 200) succeeds and receives granted = 2000; a zero
contribution at time 0 is a successful no-op allocation. -/
theorem buy_pledge_success_spec_witness :
    pledge_granted 1000 0 = 1000 * purchase_rate 0 / 100 ∧
    ((buy_pledge ⟨0, 0, 0, 0⟩ 1000 0).2 = none →
      (buy_pledge ⟨0, 0, 0, 0⟩ 1000 0).1 =
        ⟨0 + 1000 * purchase_rate 0 / 100, 0, 0,
          max 0 (w64 (0 + VESTING_PERIOD))⟩) ∧
    buy_pledge ⟨0, 0, 0, 0⟩ 0 0 =
      (⟨0, 0, 0, max 0 (w64 (0 + VESTING_PERIOD))⟩, none) :=
  buy_pledge_success_spec ⟨0, 0, 0, 0⟩ 1000 0 (by decide) (by decide)

/-- C2 counterexample: with locked_pledge_tokens one above the cap, the
plain u64 subtraction in the cap test wraps around to u64::MAX, so a
purchase with granted = 2 > 0 is accepted and the record mutated, instead
of the claimed unconditional CapExceeded rejection. -/
theorem buy_pledge_cap_underflow_cex :
    0 < pledge_granted 1 0 ∧
    buy_pledge ⟨TOTAL_PLEDGE_SUPPLY + 1, 0, 0, 0⟩ 1 0 =
      (⟨TOTAL_PLEDGE_SUPPLY + 3, 0, 0, VESTING_PERIOD⟩, none) := by
  refine ⟨by decide, by decide⟩

/-- C2 (amended): the cap test uses plain wrapping u64 subtraction.  For
every record whose locked_pledge_tokens do not exceed the cap it never
underflows: the purchase is rejected (InvalidArgument, the CapExceeded
error) exactly when granted exceeds cap minus locked, and a rejection
leaves the record unchanged.  When locked exceeds the cap the subtraction
wraps and positive grants can be accepted (see the counterexample). -/
theorem buy_pledge_cap_check_spec (r : UserState) (amount t : Nat)
    (hl : r.locked_pledge_tokens ≤ TOTAL_PLEDGE_SUPPLY) :
    ((buy_pledge r amount t).2 = some ProgramError.InvalidArgument ↔
      TOTAL_PLEDGE_SUPPLY - r.locked_pledge_tokens <
        pledge_granted amount t) ∧
    ((buy_pledge r amount t).2 = some ProgramError.InvalidArgument →
      (buy_pledge r amount t).1 = r) := by
  have hw := wsub_exact TOTAL_PLEDGE_SUPPLY r.locked_pledge_tokens hl
    (by decide)
  by_cases hc : TOTAL_PLEDGE_SUPPLY - r.locked_pledge_tokens <
      pledge_granted amount t
  · constructor
    · simp only [buy_pledge, hw]
      rw [if_pos hc]
      simp [hc]
    · intro h
      simp only [buy_pledge, hw]
      rw [if_pos hc]
  · constructor
    · simp only [buy_pledge, hw]
      rw [if_neg hc]
      simp [hc]
    · intro h
      exfalso
      simp only [buy_pledge, hw] at h
      rw [if_neg hc] at h
      simp at h

/-- Witness for C2 (amended): at a record exactly at the cap, buying 1 at
time 0 yields granted = 2 > 0 and is rejected with the record unchanged;
the iff and the unchanged-on-rejection implication hold there. -/
theorem buy_pledge_cap_check_spec_witness :
    ((buy_pledge ⟨TOTAL_PLEDGE_SUPPLY, 0, 0, 0⟩ 1 0).2 =
        some ProgramError.InvalidArgument ↔
      TOTAL_PLEDGE_SUPPLY - TOTAL_PLEDGE_SUPPLY < pledge_granted 1 0) ∧
    ((buy_pledge ⟨TOTAL_PLEDGE_SUPPLY, 0, 0, 0⟩ 1 0).2 =
        some ProgramError.InvalidArgument →
      (buy_pledge ⟨TOTAL_PLEDGE_SUPPLY, 0, 0, 0⟩ 1 0).1 =
        ⟨TOTAL_PLEDGE_SUPPLY, 0, 0, 0⟩) :=
  buy_pledge_cap_check_spec ⟨TOTAL_PLEDGE_SUPPLY, 0, 0, 0⟩ 1 0 (by decide)

/-- C3 counterexample: for durations [u64::MAX, 2, 0, 0, u64::MAX] and
elapsed = u64::MAX, the first index whose exact cumulative sum exceeds
elapsed is 1 (elapsed is not below the first cumulative sum but is below
the second), yet the wrapping running sum makes get_sale_phase fall
through to 4. -/
theorem get_sale_phase_exact_index_cex :
    get_sale_phase u64_MAX u64_MAX 2 0 0 u64_MAX = 4 ∧
    u64_MAX < u64_MAX + 2 ∧
    ¬ u64_MAX < u64_MAX := by
  refine ⟨by decide, by decide, by decide⟩

/-- C3 (amended): get_sale_phase maintains a wrapping (mod 2^64) running
sum.  Whenever the sum of the first four durations does not overflow u64
and the last duration is u64::MAX, it returns the first index i at or
below 3 with elapsed strictly below the cumulative sum through i, and 4
otherwise — always a valid index in [0,4] with no error path, with the
strict-less-than tie-break (an elapsed equal to a boundary belongs to the
next phase).  The spec's concrete values for durations
[100, 100, 100, 100, MAX] all follow. -/
theorem get_sale_phase_spec (e d0 d1 d2 d3 : Nat)
    (hs : d0 + d1 + d2 + d3 < two64) :
    get_sale_phase e d0 d1 d2 d3 u64_MAX =
      (if e < d0 then 0 else if e < d0 + d1 then 1 else
       if e < d0 + d1 + d2 then 2 else if e < d0 + d1 + d2 + d3 then 3
       else 4) ∧
    get_sale_phase e d0 d1 d2 d3 u64_MAX ≤ 4 := by
  simp only [get_sale_phase, w64, u64_MAX]
  unfold two64 at hs ⊢
  constructor <;> split_ifs <;> omega

/-- Witness for C3 (amended) at the spec's boundary example: durations
[100, 100, 100, 100, MAX], elapsed exactly 100 resolves to phase 1. -/
theorem get_sale_phase_spec_witness :
    (100 : Nat) + 100 + 100 + 100 < two64 ∧
    get_sale_phase 100 100 100 100 100 u64_MAX = 1 := by
  refine ⟨by decide, ?_⟩
  have h := (get_sale_phase_spec 100 100 100 100 100 (by decide)).1
  rw [h]
  decide

/-- A buffer shorter than 8 bytes makes the u64 field read fail. -/
theorem deserialize_u64_short (b : List Nat) (h : b.length < 8) :
    deserialize_u64 b = none := by
  rcases b with _ | ⟨x0, _ | ⟨x1, _ | ⟨x2, _ | ⟨x3, _ | ⟨x4, _ | ⟨x5,
    _ | ⟨x6, _ | ⟨x7, rest⟩⟩⟩⟩⟩⟩⟩⟩
  · rfl
  · rfl
  · rfl
  · rfl
  · rfl
  · rfl
  · rfl
  · rfl
  · simp only [List.length_cons] at h
    omega

/-- A buffer of at least 8 bytes yields a u64 and exactly 8 fewer bytes. -/
theorem deserialize_u64_long (b : List Nat) (h : 8 ≤ b.length) :
    ∃ x rest, deserialize_u64 b = some (x, rest) ∧
      rest.length + 8 = b.length := by
  rcases b with _ | ⟨x0, _ | ⟨x1, _ | ⟨x2, _ | ⟨x3, _ | ⟨x4, _ | ⟨x5,
    _ | ⟨x6, _ | ⟨x7, rest⟩⟩⟩⟩⟩⟩⟩⟩
  · simp at h
  · simp [List.length] at h
  · simp [List.length] at h
  · simp [List.length] at h
  · simp [List.length] at h
  · simp [List.length] at h
  · simp [List.length] at h
  · simp [List.length] at h
  · exact ⟨_, rest, rfl, by simp [List.length]⟩

/-- Decoding inverts encoding on every record whose fields are u64
values. -/
theorem codec_encode_decode (r : UserState)
    (h1 : r.locked_pledge_tokens < two64) (h2 : r.solhit_rewards < two64)
    (h3 : r.lock_start_time < two64) (h4 : r.vesting_end_time < two64) :
    try_from_slice (serialize_user_state r) = some r := by
  obtain ⟨a, b, c, d⟩ := r
  unfold two64 at h1 h2 h3 h4
  have ha : a < 18446744073709551616 := h1
  have hb : b < 18446744073709551616 := h2
  have hc : c < 18446744073709551616 := h3
  have hd : d < 18446744073709551616 := h4
  simp only [serialize_user_state, u64ToLE, List.cons_append,
    List.nil_append]
  simp [try_from_slice, deserialize_u64, UserState.mk.injEq]
  omega

/-- Every encoded record is exactly 32 bytes. -/
theorem codec_length (r : UserState) :
    (serialize_user_state r).length = 32 := rfl

/-- Decoding fails on every buffer whose length is not 32. -/
theorem codec_bad_length (b : List Nat) (hb : b.length ≠ 32) :
    try_from_slice b = none := by
  rcases Nat.lt_or_ge b.length 8 with h1 | h1
  · simp [try_from_slice, deserialize_u64_short b h1]
  · obtain ⟨x1, r1, e1, l1⟩ := deserialize_u64_long b h1
    rcases Nat.lt_or_ge r1.length 8 with h2 | h2
    · simp [try_from_slice, e1, deserialize_u64_short r1 h2]
    · obtain ⟨x2, r2, e2, l2⟩ := deserialize_u64_long r1 h2
      rcases Nat.lt_or_ge r2.length 8 with h3 | h3
      · simp [try_from_slice, e1, e2, deserialize_u64_short r2 h3]
      · obtain ⟨x3, r3, e3, l3⟩ := deserialize_u64_long r2 h3
        rcases Nat.lt_or_ge r3.length 8 with h4 | h4
        · simp [try_from_slice, e1, e2, e3, deserialize_u64_short r3 h4]
        · obtain ⟨x4, r4, e4, l4⟩ := deserialize_u64_long r3 h4
          have hr4 : ¬ r4 = [] := by
            intro hnil
            rw [hnil] at l4
            simp at l4
            omega
          simp [try_from_slice, e1, e2, e3, e4, hr4]

/-- Encoding inverts decoding on every 32-byte buffer. -/
theorem codec_decode_encode (b0 b1 b2 b3 b4 b5 b6 b7 b8 b9 b10 b11 b12 b13 b14 b15 b16 b17 b18 b19 b20 b21 b22 b23 b24 b25 b26 b27 b28 b29 b30 b31 : Nat)
    (h : b0 < 256 ∧
      b1 < 256 ∧
      b2 < 256 ∧
      b3 < 256 ∧
      b4 < 256 ∧
      b5 < 256 ∧
      b6 < 256 ∧
      b7 < 256 ∧
      b8 < 256 ∧
      b9 < 256 ∧
      b10 < 256 ∧
      b11 < 256 ∧
      b12 < 256 ∧
      b13 < 256 ∧
      b14 < 256 ∧
      b15 < 256 ∧
      b16 < 256 ∧
      b17 < 256 ∧
      b18 < 256 ∧
      b19 < 256 ∧
      b20 < 256 ∧
      b21 < 256 ∧
      b22 < 256 ∧
      b23 < 256 ∧
      b24 < 256 ∧
      b25 < 256 ∧
      b26 < 256 ∧
      b27 < 256 ∧
      b28 < 256 ∧
      b29 < 256 ∧
      b30 < 256 ∧
      b31 < 256) :
    Option.map serialize_user_state
      (try_from_slice [b0, b1, b2, b3, b4, b5, b6, b7, b8, b9, b10, b11, b12, b13, b14, b15, b16, b17, b18, b19, b20, b21, b22, b23, b24, b25, b26, b27, b28, b29, b30, b31]) =
      some [b0, b1, b2, b3, b4, b5, b6, b7, b8, b9, b10, b11, b12, b13, b14, b15, b16, b17, b18, b19, b20, b21, b22, b23, b24, b25, b26, b27, b28, b29, b30, b31] := by
  obtain ⟨h0, h1, h2, h3, h4, h5, h6, h7, h8, h9, h10, h11, h12, h13, h14, h15, h16, h17, h18, h19, h20, h21, h22, h23, h24, h25, h26, h27, h28, h29, h30, h31⟩ := h
  simp [try_from_slice, deserialize_u64, serialize_user_state, u64ToLE]
  omega

/-- C9: the codec round-trip and format laws.  decode (try_from_slice)
inverts encode (serialize_user_state) on every record with u64 fields;
encode inverts decode on every 32-byte buffer; every encoded record is
exactly the 32-byte little-endian concatenation of the four fields with no
header or padding; decoding fails on every buffer whose length is not 32;
and the all-zero 32-byte buffer decodes to the all-zero record. -/
theorem codec_spec :
    (∀ r : UserState, r.locked_pledge_tokens < two64 →
      r.solhit_rewards < two64 → r.lock_start_time < two64 →
      r.vesting_end_time < two64 →
      try_from_slice (serialize_user_state r) = some r) ∧
    (∀ b0 b1 b2 b3 b4 b5 b6 b7 b8 b9 b10 b11 b12 b13 b14 b15 b16 b17 b18 b19 b20 b21 b22 b23 b24 b25 b26 b27 b28 b29 b30 b31 : Nat,
      (b0 < 256 ∧
        b1 < 256 ∧
        b2 < 256 ∧
        b3 < 256 ∧
        b4 < 256 ∧
        b5 < 256 ∧
        b6 < 256 ∧
        b7 < 256 ∧
        b8 < 256 ∧
        b9 < 256 ∧
        b10 < 256 ∧
        b11 < 256 ∧
        b12 < 256 ∧
        b13 < 256 ∧
        b14 < 256 ∧
        b15 < 256 ∧
        b16 < 256 ∧
        b17 < 256 ∧
        b18 < 256 ∧
        b19 < 256 ∧
        b20 < 256 ∧
        b21 < 256 ∧
        b22 < 256 ∧
        b23 < 256 ∧
        b24 < 256 ∧
        b25 < 256 ∧
        b26 < 256 ∧
        b27 < 256 ∧
        b28 < 256 ∧
        b29 < 256 ∧
        b30 < 256 ∧
        b31 < 256) →
      Option.map serialize_user_state
        (try_from_slice [b0, b1, b2, b3, b4, b5, b6, b7, b8, b9, b10, b11, b12, b13, b14, b15, b16, b17, b18, b19, b20, b21, b22, b23, b24, b25, b26, b27, b28, b29, b30, b31]) =
        some [b0, b1, b2, b3, b4, b5, b6, b7, b8, b9, b10, b11, b12, b13, b14, b15, b16, b17, b18, b19, b20, b21, b22, b23, b24, b25, b26, b27, b28, b29, b30, b31]) ∧
    (∀ r : UserState, (serialize_user_state r).length = 32) ∧
    (∀ b : List Nat, b.length ≠ 32 → try_from_slice b = none) ∧
    try_from_slice (List.replicate 32 0) = some ⟨0, 0, 0, 0⟩ :=
  ⟨codec_encode_decode, codec_decode_encode, codec_length,
    codec_bad_length, by decide⟩

/-- Witness for C9: a concrete record round-trips through the codec, and
a 3-byte buffer is rejected. -/
theorem codec_spec_witness :
    try_from_slice (serialize_user_state ⟨1, 2, 3, 4⟩) = some ⟨1, 2, 3, 4⟩ ∧
    try_from_slice [1, 2, 3] = none :=
  ⟨codec_spec.1 ⟨1, 2, 3, 4⟩ (by decide) (by decide) (by decide) (by decide),
   codec_spec.2.2.2.1 [1, 2, 3] (by decide)⟩

end Pledge
